import Mathlib

/-!
# Verification of the `logitest` specification

`logitest` generates a regression test suite for a Python module directory
from an example driver script: it logs the input/output values observed while
the driver runs, serializes them as fixtures through a per-type
(`extension`/`load`/`dump`) handler table, emits one pytest file per observed
function, and runs the resulting suite with coverage.  Custom (non built-in)
object types are supported through `add_to_config`, which registers extra
type handlers and extra assertion functions.

This file gives a shallow embedding of that pipeline and proves the frozen
claims about it.  The only function whose full source is shipped in the
repository is `assert_documents_equal` (README, "Add custom Assertion
mappings"); it is embedded verbatim.  The `logitest` package internals
(`create_test_cases`, `add_to_config`, `get_dtype`, the CLI entry point) are
not part of the supplied sources, so they are modelled from the spec; each
such definition says so in its doc comment.
-/

namespace Logitest

/-! ## Pixmaps, pages and documents (for `assert_documents_equal`)

The README's custom assertion example compares two PDF documents page by
page through `fitz`: a document is a sequence of pages, and each page
renders to a pixmap with a `size` and a byte string `samples`.  We model a
pixmap by those two observable fields, sampled bytes as naturals. -/

structure Pixmap where
  size : Nat
  samples : List Nat
deriving DecidableEq

structure Page where
  pixmap : Pixmap
deriving DecidableEq

/-- A document, as `assert_documents_equal` observes it: its list of pages
(`len(doc)` is the page count, `doc[i].get_pixmap()` the page's pixmap). -/
abbrev Document := List Page

/-- `sum(abs(a - b) for a, b in zip(pix1.samples, pix2.samples))` from the
source: the summed absolute byte-wise difference of two sample strings,
truncated to the shorter one exactly as `zip` does. -/
def samples_diff (s1 s2 : List Nat) : Nat :=
  ((s1.zip s2).map (fun ab => (((ab.1 : Int) - (ab.2 : Int)).natAbs))).sum

/-- The page loop of `assert_documents_equal`, over the paired pages of the
two documents (the source indexes both documents by `page_num` under the
guard that the lengths are equal, which is the same pairing).  A raised
`AssertionError` is an `Except.error`. -/
def check_pages (tolerance : Nat) : List (Page × Page) → Except String Bool
  | [] => Except.ok true
  | (p1, p2) :: rest =>
    let pix1 := p1.pixmap
    let pix2 := p2.pixmap
    if pix1.size ≠ pix2.size ∨ pix1.samples ≠ pix2.samples then
      let diff := samples_diff pix1.samples pix2.samples
      if diff > tolerance then
        Except.error "Page differs beyond tolerance level"
      else
        check_pages tolerance rest
    else
      check_pages tolerance rest

/-- `assert_documents_equal(doc1_path, doc2_path, tolerance=0)` from the
README source, with the `fitz.open` calls abstracted away: the function is
given the two opened documents.  It raises (`Except.error`) when the page
counts differ, walks the pages otherwise, raising when a differing pixmap
pair exceeds the tolerance, and returns `True` in every other case. -/
def assert_documents_equal (doc1 doc2 : Document) (tolerance : Nat) :
    Except String Bool :=
  if List.length doc1 ≠ List.length doc2 then
    Except.error "Documents have different number of pages"
  else
    check_pages tolerance (doc1.zip doc2)

/-- The condition under which the page loop raises at a given page pair:
the pixmaps differ (in size or samples) and the summed absolute byte-wise
difference of their samples exceeds the tolerance. -/
def page_raises (tolerance : Nat) (pr : Page × Page) : Prop :=
  (pr.1.pixmap.size ≠ pr.2.pixmap.size ∨
      pr.1.pixmap.samples ≠ pr.2.pixmap.samples) ∧
    samples_diff pr.1.pixmap.samples pr.2.pixmap.samples > tolerance

/-! ## Runtime values and dynamic types

The generator logs Python values flowing through the module under test.  We
model the built-in values the notebook's example module exchanges (ints,
strings, booleans, `None`, lists) plus an opaque constructor for external
("custom I/O") objects such as `pymupdf.Document`, carrying the defining
module name, the class name and an opaque payload standing for the object's
contents. -/

inductive Value where
  | vint : Int → Value
  | vstr : String → Value
  | vbool : Bool → Value
  | vnone : Value
  | vlist : List Value → Value
  | vcustom : String → String → String → Value

/-- Modelled from the spec: `get_dtype` (exported by `logitest`, source not
in the repository) returns the fully qualified `module.ClassName` string of
a value's type, which is "used as the key for your `new_type_handlers`
dictionary"; the README shows `get_dtype(doc) = 'pymupdf.Document'`.
Built-in types live in Python's `builtins` module. -/
def get_dtype : Value → String
  | Value.vint _ => "builtins.int"
  | Value.vstr _ => "builtins.str"
  | Value.vbool _ => "builtins.bool"
  | Value.vnone => "builtins.NoneType"
  | Value.vlist _ => "builtins.list"
  | Value.vcustom mod cls _ => mod ++ "." ++ cls

/-! A value is built-in ("in-built python object", README) when no external
object occurs anywhere inside it. -/
mutual

def is_builtin : Value → Bool
  | Value.vint _ => true
  | Value.vstr _ => true
  | Value.vbool _ => true
  | Value.vnone => true
  | Value.vlist vs => is_builtin_list vs
  | Value.vcustom _ _ _ => false

def is_builtin_list : List Value → Bool
  | [] => true
  | v :: vs => is_builtin v && is_builtin_list vs

end

/-! Python `==` on logged values, as the generated `assert result ==
expected` uses it: structural equality. -/
mutual

def Value.beq : Value → Value → Bool
  | Value.vint a, Value.vint b => a == b
  | Value.vstr a, Value.vstr b => a == b
  | Value.vbool a, Value.vbool b => a == b
  | Value.vnone, Value.vnone => true
  | Value.vlist as, Value.vlist bs => Value.beq_list as bs
  | Value.vcustom m1 c1 p1, Value.vcustom m2 c2 p2 =>
    m1 == m2 && c1 == c2 && p1 == p2
  | _, _ => false

def Value.beq_list : List Value → List Value → Bool
  | [], [] => true
  | a :: as, b :: bs => Value.beq a b && Value.beq_list as bs
  | _, _ => false

end

/-! ## Fixture serialization

The default handlers serialize built-in values through `json.dump` /
`json.load`.  A JSON document is a tree; we model the content of a fixture
file either as such a tree or as opaque raw bytes written by a custom
`dump` function. -/

inductive Json where
  | jint : Int → Json
  | jstr : String → Json
  | jbool : Bool → Json
  | jnull : Json
  | jarr : List Json → Json

/-! `json.dump` on a logged value: defined exactly on values containing no
external object. -/
mutual

def json_dump : Value → Option Json
  | Value.vint i => some (Json.jint i)
  | Value.vstr s => some (Json.jstr s)
  | Value.vbool b => some (Json.jbool b)
  | Value.vnone => some Json.jnull
  | Value.vcustom _ _ _ => Option.none
  | Value.vlist vs =>
    match json_dump_list vs with
    | some js => some (Json.jarr js)
    | Option.none => Option.none

def json_dump_list : List Value → Option (List Json)
  | [] => some []
  | v :: vs =>
    match json_dump v, json_dump_list vs with
    | some j, some js => some (j :: js)
    | _, _ => Option.none

end

/-! `json.load` back into a logged value. -/
mutual

def json_load : Json → Option Value
  | Json.jint i => some (Value.vint i)
  | Json.jstr s => some (Value.vstr s)
  | Json.jbool b => some (Value.vbool b)
  | Json.jnull => some Value.vnone
  | Json.jarr js =>
    match json_load_list js with
    | some vs => some (Value.vlist vs)
    | Option.none => Option.none

def json_load_list : List Json → Option (List Value)
  | [] => some []
  | j :: js =>
    match json_load j, json_load_list js with
    | some v, some vs => some (v :: vs)
    | _, _ => Option.none

end

/-- The bytes stored in a fixture file: a JSON document (default handlers)
or opaque raw content written by a custom `dump` function. -/
inductive FileContent where
  | jsonFile : Json → FileContent
  | rawFile : String → FileContent

/-! ## The type handler table and the configuration -/

/-- One entry of the per-type handler table, with the three fields the
README requires of a `new_type_handlers` entry: the fixture file
`extension`, a `load` function reading an object back from a fixture file
and a `dump` function writing it. -/
structure TypeHandler where
  extension : String
  load : FileContent → Option Value
  dump : Value → Option FileContent

/-- The handler the default configuration uses for every built-in type:
`.json` fixtures written with `json.dump` and read with `json.load`. -/
def json_type_handler : TypeHandler :=
  { extension := ".json",
    load := fun c =>
      match c with
      | FileContent.jsonFile j => json_load j
      | FileContent.rawFile _ => Option.none,
    dump := fun v => (json_dump v).map FileContent.jsonFile }

/-- Modelled from the spec: the type handler table `logitest` ships with,
covering the built-in types (keyed, like every entry, by the `get_dtype`
string).  Custom types have no entry until `add_to_config` adds one. -/
def default_type_handlers : List (String × TypeHandler) :=
  [("builtins.int", json_type_handler),
   ("builtins.str", json_type_handler),
   ("builtins.bool", json_type_handler),
   ("builtins.NoneType", json_type_handler),
   ("builtins.list", json_type_handler)]

/-- First-match lookup in an association list keyed by strings (Python dict
lookup, with earlier entries shadowing later ones after an update). -/
def lookup_key {α : Type} : List (String × α) → String → Option α
  | [], _ => Option.none
  | (k, v) :: rest, key => if k = key then some v else lookup_key rest key

/-- The module configuration: the per-type handler table and the assertion
mapping sending a `get_dtype` key to the pair (import statement, custom
assert function name) the README's `new_assertion_mapping` stores. -/
structure Config where
  type_handlers : List (String × TypeHandler)
  assertion_mapping : List (String × (String × String))

/-- Modelled from the spec: the configuration in force before any
`add_to_config` call — built-in handlers only, no custom assertions. -/
def default_config : Config :=
  { type_handlers := default_type_handlers,
    assertion_mapping := [] }

/-- Modelled from the spec: the denotation of a `type_handling_str` code
string — executing it must define a dictionary named `new_type_handlers`
(README: "This new dictionary should have the name 'new_type_handlers'"). -/
structure TypeHandlingCode where
  new_type_handlers : List (String × TypeHandler)

/-- Modelled from the spec: the denotation of an `assertion_mapping_str`
code string — executing it must define a dictionary named
`new_assertion_mapping`. -/
structure AssertionMappingCode where
  new_assertion_mapping : List (String × (String × String))

/-- Modelled from the spec: `add_to_config(type_handling_str,
assertion_mapping_str)` (source not in the repository) executes the two
code strings and registers the dictionaries they define into the module
configuration, new entries taking precedence over existing ones. -/
def add_to_config (type_handling_str : TypeHandlingCode)
    (assertion_mapping_str : AssertionMappingCode) (cfg : Config) : Config :=
  { type_handlers :=
      type_handling_str.new_type_handlers ++ cfg.type_handlers,
    assertion_mapping :=
      assertion_mapping_str.new_assertion_mapping ++ cfg.assertion_mapping }

/-! ## The module under test and the logged driver run -/

/-- A function or method discovered in a source file: its name and its
input/output behavior. -/
structure FunctionDef where
  name : String
  impl : List Value → Value

/-- One source file of the module directory. -/
structure SourceFile where
  name : String
  functions : List FunctionDef

/-- The module directory: a list of source files. -/
abbrev ModuleDir := List SourceFile

/-- One call the driver script makes into the module. -/
structure Call where
  file : String
  func : String
  args : List Value

def find_function_defs : List FunctionDef → String → Option (List Value → Value)
  | [], _ => Option.none
  | f :: fs, func => if f.name = func then some f.impl else find_function_defs fs func

def find_source_file : ModuleDir → String → Option SourceFile
  | [], _ => Option.none
  | sf :: sfs, file => if sf.name = file then some sf else find_source_file sfs file

/-- Resolve a (source file, function) pair in the module directory. -/
def find_function (m : ModuleDir) (file func : String) :
    Option (List Value → Value) :=
  match find_source_file m file with
  | some sf => find_function_defs sf.functions func
  | Option.none => Option.none

/-- One logged observation: a resolved call together with the output value
the module produced for it. -/
structure LogEntry where
  file : String
  func : String
  inputs : List Value
  output : Value

/-- Modelled from the spec: running the driver script under logging
records, for every call it makes that resolves to a function of the module
directory, the input values and the output value the unchanged module
produced. -/
def observe (m : ModuleDir) (driver : List Call) : List LogEntry :=
  driver.filterMap (fun c =>
    (find_function m c.file c.func).map (fun f =>
      { file := c.file, func := c.func, inputs := c.args, output := f c.args }))

/-! ## Fixtures and generated test cases -/

/-- One fixture file written next to a generated test: its file name (stem
plus the handler's extension), the `get_dtype` key under which its handler
is found again at load time, and its content. -/
structure Fixture where
  filename : String
  dtype : String
  content : FileContent

/-- How a generated test body compares the actual result against the
baseline: the default `==` assertion, or a registered custom assert
function carried with its import statement. -/
inductive AssertionSpec where
  | defaultEq : AssertionSpec
  | custom : String → String → AssertionSpec

/-- One generated test file: which function it exercises, its path under
`tests/`, the recorded input fixtures, the recorded baseline output
fixture, and the assertion its body uses. -/
structure TestCase where
  sourceFile : String
  funcName : String
  path : String
  inputFixtures : List Fixture
  outputFixture : Fixture
  assertion : AssertionSpec

/-- The handler table entry used for a value: looked up under the key
`get_dtype value`. -/
def handler_for (cfg : Config) (v : Value) : Option TypeHandler :=
  lookup_key cfg.type_handlers (get_dtype v)

/-- Modelled from the spec: write one observed value to a fixture file.
The handler looked up under `get_dtype v` supplies the `dump` function and
the file extension; with no handler (or a failing dump) the value cannot be
serialized. -/
def dump_value (cfg : Config) (stem : String) (v : Value) : Option Fixture :=
  match handler_for cfg v with
  | some h =>
    match h.dump v with
    | some c => some { filename := stem ++ h.extension,
                       dtype := get_dtype v,
                       content := c }
    | Option.none => Option.none
  | Option.none => Option.none

/-- Modelled from the spec: read a fixture back with the `load` function of
the handler registered under the fixture's recorded type key. -/
def load_fixture (cfg : Config) (fx : Fixture) : Option Value :=
  match lookup_key cfg.type_handlers fx.dtype with
  | some h => h.load fx.content
  | Option.none => Option.none

/-- Dump the positional inputs of an observed call, numbering their fixture
files. -/
def dump_inputs (cfg : Config) (stem : String) :
    Nat → List Value → Option (List Fixture)
  | _, [] => some []
  | i, v :: vs =>
    match dump_value cfg (stem ++ "_input_" ++ toString i) v,
        dump_inputs cfg stem (i + 1) vs with
    | some fx, some fxs => some (fx :: fxs)
    | _, _ => Option.none

/-- Load a list of fixtures back into values. -/
def load_fixtures (cfg : Config) : List Fixture → Option (List Value)
  | [] => some []
  | fx :: fxs =>
    match load_fixture cfg fx, load_fixtures cfg fxs with
    | some v, some vs => some (v :: vs)
    | _, _ => Option.none

/-- The assertion the generated test body uses for an output of the given
type key: the custom assert function registered under that key, the
default `==` assertion when none is. -/
def assertion_for (cfg : Config) (dtype : String) : AssertionSpec :=
  match lookup_key cfg.assertion_mapping dtype with
  | some (imp, fn) => AssertionSpec.custom imp fn
  | Option.none => AssertionSpec.defaultEq

/-- The path of the generated test file for a function: grouped by source
file, `tests/<source-file-name>/test_<function-name>.py` (the notebook run
shows `tests\file1\test_add.py`, …). -/
def test_path (file func : String) : String :=
  "tests/" ++ file ++ "/test_" ++ func ++ ".py"

/-- The stem under which an observed call's fixture files are written. -/
def fixture_stem (e : LogEntry) : String :=
  "tests/" ++ e.file ++ "/" ++ e.func

/-- Modelled from the spec: generate the test for one observed call — dump
its inputs and its baseline output as fixtures and pick the assertion for
the output's type. -/
def generate_test (cfg : Config) (e : LogEntry) : Option TestCase :=
  match dump_inputs cfg (fixture_stem e) 0 e.inputs,
      dump_value cfg (fixture_stem e ++ "_output") e.output with
  | some infx, some outfx =>
    some { sourceFile := e.file,
           funcName := e.func,
           path := test_path e.file e.func,
           inputFixtures := infx,
           outputFixture := outfx,
           assertion := assertion_for cfg (get_dtype e.output) }
  | _, _ => Option.none

/-- Modelled from the spec: generate the whole suite, one test per logged
observation; generation fails if any observed value has no usable
handler. -/
def generate_tests (cfg : Config) : List LogEntry → Option (List TestCase)
  | [] => some []
  | e :: es =>
    match generate_test cfg e, generate_tests cfg es with
    | some tc, some tcs => some (tc :: tcs)
    | _, _ => Option.none

/-! ## Running the generated suite -/

/-- The functions a custom assertion's import statement brings into scope
at test run time: a comparator on the two dumped fixture contents (the
README's `assert_documents_equal` compares the two files on disk). -/
abbrev AssertEnv := String → FileContent → FileContent → Bool

/-- Dump a value to raw fixture content with its handler (used to hand the
actual result to a custom assert function, which compares files). -/
def dump_content (cfg : Config) (v : Value) : Option FileContent :=
  match handler_for cfg v with
  | some h => h.dump v
  | Option.none => Option.none

/-- The assertion at the end of a generated test body: the default branch
loads the baseline fixture and compares with `==`; the custom branch dumps
the actual result and calls the imported custom assert function on the two
file contents. -/
def apply_assertion (env : AssertEnv) (cfg : Config) (spec : AssertionSpec)
    (baseline : Fixture) (actual : Value) : Bool :=
  match spec with
  | AssertionSpec.defaultEq =>
    match load_fixture cfg baseline with
    | some expected => Value.beq actual expected
    | Option.none => false
  | AssertionSpec.custom _ fn =>
    match dump_content cfg actual with
    | some c => env fn c baseline.content
    | Option.none => false

/-- Modelled from the spec: run one generated test against a module: load
the recorded inputs, call the function under test, and apply the test's
assertion to the actual result. -/
def run_test (env : AssertEnv) (cfg : Config) (m : ModuleDir)
    (tc : TestCase) : Bool :=
  match find_function m tc.sourceFile tc.funcName with
  | some f =>
    match load_fixtures cfg tc.inputFixtures with
    | some args => apply_assertion env cfg tc.assertion tc.outputFixture (f args)
    | Option.none => false
  | Option.none => false

/-- What a test run reports: the process exit status and the list of files
coverage was measured for. -/
structure RunReport where
  exitCode : Nat
  coverage : List String

def source_file_names (m : ModuleDir) : List String :=
  m.map SourceFile.name

def test_file_names (suite : List TestCase) : List String :=
  suite.map TestCase.path

/-- Modelled from the spec: run the generated suite with coverage — exit
status 0 exactly when every test passes, per-file coverage reported for the
conftest, the module's source files and the generated test files (as the
notebook's coverage table shows). -/
def run_suite (env : AssertEnv) (cfg : Config) (m : ModuleDir)
    (suite : List TestCase) : RunReport :=
  { exitCode := if suite.all (run_test env cfg m) then 0 else 1,
    coverage := "conftest.py" :: (source_file_names m ++ test_file_names suite) }

/-- Modelled from the spec: `create_test_cases` — observe the driver run,
generate the suite, run it with coverage and return the run's exit status
(the notebook cell shows the call returning `0`). -/
def create_test_cases (env : AssertEnv) (cfg : Config) (m : ModuleDir)
    (driver : List Call) : Option Nat :=
  match generate_tests cfg (observe m driver) with
  | some suite => some (run_suite env cfg m suite).exitCode
  | Option.none => Option.none

/-! ## Paths, the conftest and the command line -/

/-- The parent directory of a `/`-separated path: everything before the
last `/`. -/
def parent_dir (path : String) : String :=
  String.mk (((path.data.reverse.dropWhile (fun c => c != '/')).drop 1).reverse)

/-- Where `create_test_cases` writes the conftest: `conftest.py` in the
parent directory of the module directory (the notebook shows "Created
conftest.py at …\examples\conftest.py" for module dir
`examples/example_module`). -/
def conftest_path (module_dirpath : String) : String :=
  parent_dir module_dirpath ++ "/conftest.py"

/-- Modelled from the spec: the files `create_test_cases` writes for a
module directory path — the conftest in the parent directory and one test
file per observed function. -/
def written_files (cfg : Config) (module_dirpath : String) (m : ModuleDir)
    (driver : List Call) : Option (List String) :=
  match generate_tests cfg (observe m driver) with
  | some suite => some (conftest_path module_dirpath :: test_file_names suite)
  | Option.none => Option.none

/-- What the two path arguments denote on disk: the module directory and
the parsed driver script. -/
structure Disk where
  load_module : String → Option ModuleDir
  load_driver : String → Option (List Call)

/-- Modelled from the spec: the Python API entry point
`create_test_cases(module_dirpath, main_filepath)` — resolve the two paths,
then observe, generate and run with the given configuration. -/
def create_test_cases_paths (env : AssertEnv) (disk : Disk) (cfg : Config)
    (module_dirpath main_filepath : String) : Option Nat :=
  match disk.load_module module_dirpath, disk.load_driver main_filepath with
  | some m, some driver => create_test_cases env cfg m driver
  | _, _ => Option.none

/-- Modelled from the spec: the console entry point
`logitest <module_dirpath> <main_filepath>` — parse the two positional
arguments and run the same observe/generate/run pipeline with the default
configuration. -/
def cli_main (env : AssertEnv) (disk : Disk) (args : List String) : Option Nat :=
  match args with
  | [module_dirpath, main_filepath] =>
    match disk.load_module module_dirpath, disk.load_driver main_filepath with
    | some m, some driver =>
      match generate_tests default_config (observe m driver) with
      | some suite => some (run_suite env default_config m suite).exitCode
      | Option.none => Option.none
    | _, _ => Option.none
  | _ => Option.none

/-! ## The README's custom PDF handler example (concrete instances) -/

/-- The README's `load_pdf` example, over modelled file contents: opening a
saved PDF file yields the `pymupdf.Document` object with that content. -/
def load_pdf : FileContent → Option Value
  | FileContent.rawFile p => some (Value.vcustom "pymupdf" "Document" p)
  | FileContent.jsonFile _ => Option.none

/-- The README's `dump_pdf` example: `doc.save(filepath)` writes the
document's bytes. -/
def dump_pdf : Value → Option FileContent
  | Value.vcustom "pymupdf" "Document" p => some (FileContent.rawFile p)
  | _ => Option.none

/-- The README's `new_type_handlers` entry for `pymupdf.Document`. -/
def pdf_type_handler : TypeHandler :=
  { extension := ".pdf", load := load_pdf, dump := dump_pdf }

/-- The denotation of the README's `type_handler_str` code string. -/
def pdf_type_handling_code : TypeHandlingCode :=
  { new_type_handlers := [("pymupdf.Document", pdf_type_handler)] }

/-- The denotation of the README's `assertion_mapping_str` code string. -/
def pdf_assertion_mapping_code : AssertionMappingCode :=
  { new_assertion_mapping :=
      [("pymupdf.Document",
        ("from logitest.config import assert_documents_equal",
         "assert_documents_equal"))] }

/-- The configuration after the README's `add_to_config` call. -/
def pdf_config : Config :=
  add_to_config pdf_type_handling_code pdf_assertion_mapping_code default_config

/-! ## Concrete instances (the notebook's `file1.add` and a PDF call) -/

/-- A one-file module directory with the notebook's `file1.add`. -/
def example_module : ModuleDir :=
  [{ name := "file1",
     functions :=
       [{ name := "add",
          impl := fun args =>
            match args with
            | [Value.vint a, Value.vint b] => Value.vint (a + b)
            | _ => Value.vnone }] }]

/-- A driver script calling `file1.add(2, 3)`. -/
def example_driver : List Call :=
  [{ file := "file1", func := "add", args := [Value.vint 2, Value.vint 3] }]

/-- The observation the driver run logs: `add(2, 3) = 5`. -/
def example_entry : LogEntry :=
  { file := "file1", func := "add",
    inputs := [Value.vint 2, Value.vint 3], output := Value.vint 5 }

/-- The suite generated for `example_driver` under the default
configuration. -/
def example_suite : List TestCase :=
  [{ sourceFile := "file1", funcName := "add",
     path := "tests/file1/test_add.py",
     inputFixtures :=
       [{ filename := "tests/file1/add_input_0.json", dtype := "builtins.int",
          content := FileContent.jsonFile (Json.jint 2) },
        { filename := "tests/file1/add_input_1.json", dtype := "builtins.int",
          content := FileContent.jsonFile (Json.jint 3) }],
     outputFixture := { filename := "tests/file1/add_output.json",
                        dtype := "builtins.int",
                        content := FileContent.jsonFile (Json.jint 5) },
     assertion := AssertionSpec.defaultEq }]

/-- A run-time environment binding no useful custom assert functions (the
default configuration never consults it). -/
def example_env : AssertEnv := fun _ _ _ => false

/-- An observed call returning a `pymupdf.Document`. -/
def pdf_entry : LogEntry :=
  { file := "file1", func := "get_doc", inputs := [],
    output := Value.vcustom "pymupdf" "Document" "docbytes" }

/-- The fixture written for an observed `int` value `7` under the default
configuration. -/
def example_int_fixture : Fixture :=
  { filename := "tests/file1/calc_output.json", dtype := "builtins.int",
    content := FileContent.jsonFile (Json.jint 7) }

/-- The test generated for `pdf_entry` under `pdf_config`: a `.pdf` baseline
fixture and the registered custom assertion. -/
def pdf_test_case : TestCase :=
  { sourceFile := "file1", funcName := "get_doc",
    path := "tests/file1/test_get_doc.py",
    inputFixtures := [],
    outputFixture := { filename := "tests/file1/get_doc_output.pdf",
                       dtype := "pymupdf.Document",
                       content := FileContent.rawFile "docbytes" },
    assertion := AssertionSpec.custom
      "from logitest.config import assert_documents_equal"
      "assert_documents_equal" }

theorem check_pages_ok_iff (tolerance : Nat) (prs : List (Page × Page)) :
    check_pages tolerance prs = Except.ok true ↔
      ∀ pr ∈ prs, ¬ page_raises tolerance pr := by
  induction prs with
  | nil => simp [check_pages]
  | cons hd tl ih =>
    obtain ⟨p1, p2⟩ := hd
    by_cases hdif : p1.pixmap.size ≠ p2.pixmap.size ∨
        p1.pixmap.samples ≠ p2.pixmap.samples
    · by_cases htol : samples_diff p1.pixmap.samples p2.pixmap.samples > tolerance
      · simp only [check_pages, if_pos hdif, if_pos htol]
        constructor
        · intro h; exact absurd h (by simp)
        · intro h
          exact absurd ⟨hdif, htol⟩ (h (p1, p2) (List.mem_cons_self _ _))
      · simp only [check_pages, if_pos hdif, if_neg htol]
        rw [ih]
        constructor
        · intro h pr hpr
          rcases List.mem_cons.mp hpr with heq | hmem
          · subst heq; exact fun hc => htol hc.2
          · exact h pr hmem
        · intro h pr hpr; exact h pr (List.mem_cons_of_mem _ hpr)
    · simp only [check_pages, if_neg hdif]
      rw [ih]
      constructor
      · intro h pr hpr
        rcases List.mem_cons.mp hpr with heq | hmem
        · subst heq; exact fun hc => hdif hc.1
        · exact h pr hmem
      · intro h pr hpr; exact h pr (List.mem_cons_of_mem _ hpr)

theorem check_pages_error_iff (tolerance : Nat) (prs : List (Page × Page)) :
    (∃ e, check_pages tolerance prs = Except.error e) ↔
      ∃ pr ∈ prs, page_raises tolerance pr := by
  induction prs with
  | nil => simp [check_pages]
  | cons hd tl ih =>
    obtain ⟨p1, p2⟩ := hd
    by_cases hdif : p1.pixmap.size ≠ p2.pixmap.size ∨
        p1.pixmap.samples ≠ p2.pixmap.samples
    · by_cases htol : samples_diff p1.pixmap.samples p2.pixmap.samples > tolerance
      · simp only [check_pages, if_pos hdif, if_pos htol]
        constructor
        · intro _
          exact ⟨(p1, p2), List.mem_cons_self _ _, hdif, htol⟩
        · intro _; exact ⟨"Page differs beyond tolerance level", rfl⟩
      · simp only [check_pages, if_pos hdif, if_neg htol]
        rw [ih]
        constructor
        · intro ⟨pr, hmem, hr⟩
          exact ⟨pr, List.mem_cons_of_mem _ hmem, hr⟩
        · intro ⟨pr, hmem, hr⟩
          rcases List.mem_cons.mp hmem with heq | hmem2
          · exact absurd (heq ▸ hr).2 htol
          · exact ⟨pr, hmem2, hr⟩
    · simp only [check_pages, if_neg hdif]
      rw [ih]
      constructor
      · intro ⟨pr, hmem, hr⟩
        exact ⟨pr, List.mem_cons_of_mem _ hmem, hr⟩
      · intro ⟨pr, hmem, hr⟩
        rcases List.mem_cons.mp hmem with heq | hmem2
        · exact absurd (heq ▸ hr).1 hdif
        · exact ⟨pr, hmem2, hr⟩

/-- C6: `assert_documents_equal(doc1_path, doc2_path, tolerance)` raises
`AssertionError` whenever the two documents have different numbers of pages;
when page counts match, it raises exactly when some page's pixmaps differ
(in size or samples) and the summed absolute byte-wise difference of their
samples exceeds the tolerance; in every other case it returns `True`. -/
theorem assert_documents_equal_spec (doc1 doc2 : Document) (tolerance : Nat) :
    (assert_documents_equal doc1 doc2 tolerance = Except.ok true ↔
        (List.length doc1 = List.length doc2 ∧
          ∀ pr ∈ doc1.zip doc2, ¬ page_raises tolerance pr)) ∧
    ((∃ e, assert_documents_equal doc1 doc2 tolerance = Except.error e) ↔
        (List.length doc1 ≠ List.length doc2 ∨
          ∃ pr ∈ doc1.zip doc2, page_raises tolerance pr)) := by
  unfold assert_documents_equal
  by_cases hlen : List.length doc1 ≠ List.length doc2
  · rw [if_pos hlen]
    constructor
    · constructor
      · intro h; exact absurd h (by simp)
      · intro h; exact absurd h.1 hlen
    · constructor
      · intro _; exact Or.inl hlen
      · intro _; exact ⟨"Documents have different number of pages", rfl⟩
  · rw [if_neg hlen]
    push_neg at hlen
    constructor
    · rw [check_pages_ok_iff]
      exact ⟨fun h => ⟨hlen, h⟩, fun h => h.2⟩
    · rw [check_pages_error_iff]
      constructor
      · intro h; exact Or.inr h
      · intro h
        rcases h with hbad | h
        · exact absurd hlen hbad
        · exact h

/-- Concrete instance of `assert_documents_equal_spec`: two one-page
documents whose single pixmaps differ by 3 bytes total, checked at
tolerance 2 (the test raises) — the characterization evaluated there. -/
theorem assert_documents_equal_spec_witness :
    (assert_documents_equal ([⟨⟨3, [10, 10, 10]⟩⟩] : Document)
          ([⟨⟨3, [11, 11, 11]⟩⟩] : Document) 2 = Except.ok true ↔
        (List.length ([⟨⟨3, [10, 10, 10]⟩⟩] : Document) =
            List.length ([⟨⟨3, [11, 11, 11]⟩⟩] : Document) ∧
          ∀ pr ∈ List.zip ([⟨⟨3, [10, 10, 10]⟩⟩] : Document)
              ([⟨⟨3, [11, 11, 11]⟩⟩] : Document),
            ¬ page_raises 2 pr)) ∧
    ((∃ e, assert_documents_equal ([⟨⟨3, [10, 10, 10]⟩⟩] : Document)
          ([⟨⟨3, [11, 11, 11]⟩⟩] : Document) 2 = Except.error e) ↔
        (List.length ([⟨⟨3, [10, 10, 10]⟩⟩] : Document) ≠
            List.length ([⟨⟨3, [11, 11, 11]⟩⟩] : Document) ∨
          ∃ pr ∈ List.zip ([⟨⟨3, [10, 10, 10]⟩⟩] : Document)
              ([⟨⟨3, [11, 11, 11]⟩⟩] : Document),
            page_raises 2 pr)) :=
  assert_documents_equal_spec ([⟨⟨3, [10, 10, 10]⟩⟩] : Document)
    ([⟨⟨3, [11, 11, 11]⟩⟩] : Document) 2

/-! ## Helper lemmas: structural equality and the JSON codec -/

mutual

theorem Value.beq_refl (v : Value) : Value.beq v v = true := by
  cases v with
  | vint i => simp [Value.beq]
  | vstr s => simp [Value.beq]
  | vbool b => simp [Value.beq]
  | vnone => simp [Value.beq]
  | vcustom m c p => simp [Value.beq]
  | vlist vs => rw [Value.beq]; exact Value.beq_list_refl vs

theorem Value.beq_list_refl (vs : List Value) : Value.beq_list vs vs = true := by
  cases vs with
  | nil => simp [Value.beq_list]
  | cons v vtl => rw [Value.beq_list, Value.beq_refl v, Value.beq_list_refl vtl]; simp

end

mutual

theorem json_load_dump (v : Value) :
    ∀ j, json_dump v = some j → json_load j = some v := by
  intro j hj
  cases v with
  | vint i => simp [json_dump] at hj; subst hj; simp [json_load]
  | vstr s => simp [json_dump] at hj; subst hj; simp [json_load]
  | vbool b => simp [json_dump] at hj; subst hj; simp [json_load]
  | vnone => simp [json_dump] at hj; subst hj; simp [json_load]
  | vcustom m c p => simp [json_dump] at hj
  | vlist vs =>
    rw [json_dump] at hj
    cases hdl : json_dump_list vs with
    | none => rw [hdl] at hj; exact absurd hj (by simp)
    | some js =>
      rw [hdl] at hj
      simp at hj
      subst hj
      rw [json_load, json_load_dump_list vs js hdl]

theorem json_load_dump_list (vs : List Value) :
    ∀ js, json_dump_list vs = some js → json_load_list js = some vs := by
  intro js hjs
  cases vs with
  | nil => simp [json_dump_list] at hjs; subst hjs; simp [json_load_list]
  | cons v vtl =>
    rw [json_dump_list] at hjs
    cases hd : json_dump v with
    | none => rw [hd] at hjs; exact absurd hjs (by simp)
    | some j =>
      cases htl : json_dump_list vtl with
      | none => rw [hd, htl] at hjs; exact absurd hjs (by simp)
      | some jtl =>
        rw [hd, htl] at hjs
        simp at hjs
        subst hjs
        rw [json_load_list, json_load_dump v j hd,
          json_load_dump_list vtl jtl htl]

end

mutual

theorem json_dump_builtin (v : Value) :
    is_builtin v = true → ∃ j, json_dump v = some j := by
  intro hb
  cases v with
  | vint i => exact ⟨Json.jint i, rfl⟩
  | vstr s => exact ⟨Json.jstr s, rfl⟩
  | vbool b => exact ⟨Json.jbool b, rfl⟩
  | vnone => exact ⟨Json.jnull, rfl⟩
  | vcustom m c p => exact absurd hb (by simp [is_builtin])
  | vlist vs =>
    rw [is_builtin] at hb
    obtain ⟨js, hjs⟩ := json_dump_list_builtin vs hb
    exact ⟨Json.jarr js, by rw [json_dump, hjs]⟩

theorem json_dump_list_builtin (vs : List Value) :
    is_builtin_list vs = true → ∃ js, json_dump_list vs = some js := by
  intro hb
  cases vs with
  | nil => exact ⟨[], rfl⟩
  | cons v vtl =>
    rw [is_builtin_list, Bool.and_eq_true] at hb
    obtain ⟨j, hj⟩ := json_dump_builtin v hb.1
    obtain ⟨jtl, hjtl⟩ := json_dump_list_builtin vtl hb.2
    exact ⟨j :: jtl, by rw [json_dump_list, hj, hjtl]⟩

end

/-! ## Helper lemmas: table lookup and the default handlers -/

theorem lookup_key_append_left {α : Type} (xs ys : List (String × α))
    (key : String) (v : α) (h : lookup_key xs key = some v) :
    lookup_key (xs ++ ys) key = some v := by
  induction xs with
  | nil => exact absurd h (by simp [lookup_key])
  | cons hd tl ih =>
    obtain ⟨k, a⟩ := hd
    by_cases hk : k = key
    · rw [lookup_key, if_pos hk] at h
      simpa [lookup_key, if_pos hk] using h
    · rw [lookup_key, if_neg hk] at h
      simpa [lookup_key, if_neg hk] using ih h

theorem lookup_default_handler (key : String) (h : TypeHandler)
    (hl : lookup_key default_type_handlers key = some h) :
    h = json_type_handler := by
  simp only [default_type_handlers, lookup_key] at hl
  split_ifs at hl <;> simp_all

theorem handler_for_default_builtin (v : Value) (hb : is_builtin v = true) :
    handler_for default_config v = some json_type_handler := by
  cases v with
  | vint i => rfl
  | vstr s => rfl
  | vbool b => rfl
  | vnone => rfl
  | vlist vs => rfl
  | vcustom m c p => exact absurd hb (by simp [is_builtin])

theorem dump_value_default_builtin (stem : String) (v : Value)
    (hb : is_builtin v = true) :
    ∃ fx, dump_value default_config stem v = some fx := by
  obtain ⟨j, hj⟩ := json_dump_builtin v hb
  refine ⟨{ filename := stem ++ json_type_handler.extension,
            dtype := get_dtype v,
            content := FileContent.jsonFile j }, ?_⟩
  rw [dump_value, handler_for_default_builtin v hb]
  simp [json_type_handler, hj]

theorem dump_value_load_default (stem : String) (v : Value) (fx : Fixture)
    (hd : dump_value default_config stem v = some fx) :
    load_fixture default_config fx = some v := by
  rw [dump_value] at hd
  cases hh : handler_for default_config v with
  | none => simp [hh] at hd
  | some h =>
    simp only [hh] at hd
    have hjson : h = json_type_handler :=
      lookup_default_handler (get_dtype v) h hh
    subst hjson
    cases hc : json_type_handler.dump v with
    | none => simp [hc] at hd
    | some c =>
      simp only [hc, Option.some.injEq] at hd
      have hjd : ∃ j, json_dump v = some j ∧ c = FileContent.jsonFile j := by
        simp only [json_type_handler] at hc
        cases hjv : json_dump v with
        | none => simp [hjv] at hc
        | some j =>
          simp only [hjv, Option.map_some', Option.some.injEq] at hc
          exact ⟨j, rfl, hc.symm⟩
      obtain ⟨j, hjv, hcj⟩ := hjd
      rw [load_fixture, ← hd]
      have hlk : lookup_key default_config.type_handlers (get_dtype v) =
          some json_type_handler := hh
      simp only [hlk, hcj]
      simpa [json_type_handler] using json_load_dump v j hjv

theorem load_fixtures_dump_inputs_default (stem : String) :
    ∀ (vs : List Value) (i : Nat) (fxs : List Fixture),
      dump_inputs default_config stem i vs = some fxs →
      load_fixtures default_config fxs = some vs := by
  intro vs
  induction vs with
  | nil =>
    intro i fxs h
    simp only [dump_inputs, Option.some.injEq] at h
    subst h
    rfl
  | cons v vtl ih =>
    intro i fxs h
    rw [dump_inputs] at h
    cases hd : dump_value default_config (stem ++ "_input_" ++ toString i) v with
    | none => simp [hd] at h
    | some fx =>
      cases htl : dump_inputs default_config stem (i + 1) vtl with
      | none => simp [hd, htl] at h
      | some fxtl =>
        simp only [hd, htl, Option.some.injEq] at h
        subst h
        rw [load_fixtures,
          dump_value_load_default (stem ++ "_input_" ++ toString i) v fx hd,
          ih (i + 1) fxtl htl]

theorem dump_inputs_default_builtin (stem : String) :
    ∀ (vs : List Value) (i : Nat), is_builtin_list vs = true →
      ∃ fxs, dump_inputs default_config stem i vs = some fxs := by
  intro vs
  induction vs with
  | nil => intro i _; exact ⟨[], rfl⟩
  | cons v vtl ih =>
    intro i hb
    rw [is_builtin_list, Bool.and_eq_true] at hb
    obtain ⟨fx, hfx⟩ :=
      dump_value_default_builtin (stem ++ "_input_" ++ toString i) v hb.1
    obtain ⟨fxtl, hfxtl⟩ := ih (i + 1) hb.2
    exact ⟨fx :: fxtl, by rw [dump_inputs, hfx, hfxtl]⟩

theorem assertion_for_default (dtype : String) :
    assertion_for default_config dtype = AssertionSpec.defaultEq := rfl

/-! ## Helper lemmas: observation and generation -/

theorem observe_mem (m : ModuleDir) (driver : List Call) (e : LogEntry)
    (he : e ∈ observe m driver) :
    ∃ f, find_function m e.file e.func = some f ∧ f e.inputs = e.output := by
  rw [observe, List.mem_filterMap] at he
  obtain ⟨c, _, hc⟩ := he
  cases hf : find_function m c.file c.func with
  | none => rw [hf] at hc; exact absurd hc (by simp)
  | some f =>
    rw [hf] at hc
    simp only [Option.map_some', Option.some.injEq] at hc
    subst hc
    exact ⟨f, hf, rfl⟩

theorem generate_test_fields (cfg : Config) (e : LogEntry) (tc : TestCase)
    (hgen : generate_test cfg e = some tc) :
    tc.sourceFile = e.file ∧ tc.funcName = e.func ∧
    tc.path = test_path e.file e.func ∧
    tc.assertion = assertion_for cfg (get_dtype e.output) ∧
    dump_inputs cfg (fixture_stem e) 0 e.inputs = some tc.inputFixtures ∧
    dump_value cfg (fixture_stem e ++ "_output") e.output =
      some tc.outputFixture := by
  rw [generate_test] at hgen
  cases hin : dump_inputs cfg (fixture_stem e) 0 e.inputs with
  | none => simp [hin] at hgen
  | some infx =>
    cases hout : dump_value cfg (fixture_stem e ++ "_output") e.output with
    | none => simp [hin, hout] at hgen
    | some outfx =>
      simp only [hin, hout, Option.some.injEq] at hgen
      subst hgen
      exact ⟨rfl, rfl, rfl, rfl, rfl, rfl⟩

theorem run_test_default_of_entry (env : AssertEnv) (m : ModuleDir)
    (e : LogEntry) (tc : TestCase) (f : List Value → Value)
    (hfind : find_function m e.file e.func = some f)
    (hout : f e.inputs = e.output)
    (hgen : generate_test default_config e = some tc) :
    run_test env default_config m tc = true := by
  obtain ⟨hsf, hfn, _, hassert, hin, hofx⟩ :=
    generate_test_fields default_config e tc hgen
  have hload := load_fixtures_dump_inputs_default (fixture_stem e) e.inputs 0
    tc.inputFixtures hin
  have hexp := dump_value_load_default (fixture_stem e ++ "_output") e.output
    tc.outputFixture hofx
  rw [run_test, hsf, hfn]
  simp only [hfind, hload]
  rw [hassert, assertion_for_default]
  simp only [apply_assertion, hexp, hout]
  exact Value.beq_refl e.output

theorem generate_tests_pass_default (env : AssertEnv) (m : ModuleDir) :
    ∀ (es : List LogEntry) (suite : List TestCase),
      (∀ e ∈ es, ∃ f, find_function m e.file e.func = some f ∧
        f e.inputs = e.output) →
      generate_tests default_config es = some suite →
      suite.all (run_test env default_config m) = true := by
  intro es
  induction es with
  | nil =>
    intro suite _ hgen
    simp only [generate_tests, Option.some.injEq] at hgen
    subst hgen
    rfl
  | cons e etl ih =>
    intro suite hprop hgen
    rw [generate_tests] at hgen
    cases hg : generate_test default_config e with
    | none => simp [hg] at hgen
    | some tc =>
      cases hgtl : generate_tests default_config etl with
      | none => simp [hg, hgtl] at hgen
      | some tcs =>
        simp only [hg, hgtl, Option.some.injEq] at hgen
        subst hgen
        obtain ⟨f, hfind, hout⟩ := hprop e (List.mem_cons_self _ _)
        rw [List.all_cons,
          run_test_default_of_entry env m e tc f hfind hout hg,
          ih tcs (fun e2 he2 => hprop e2 (List.mem_cons_of_mem _ he2)) hgtl]
        rfl

theorem generate_tests_total_default :
    ∀ (es : List LogEntry),
      (∀ e ∈ es, is_builtin_list e.inputs = true ∧
        is_builtin e.output = true) →
      ∃ suite, generate_tests default_config es = some suite := by
  intro es
  induction es with
  | nil => intro _; exact ⟨[], rfl⟩
  | cons e etl ih =>
    intro hprop
    obtain ⟨hbin, hbout⟩ := hprop e (List.mem_cons_self _ _)
    obtain ⟨infx, hinfx⟩ :=
      dump_inputs_default_builtin (fixture_stem e) e.inputs 0 hbin
    obtain ⟨outfx, houtfx⟩ :=
      dump_value_default_builtin (fixture_stem e ++ "_output") e.output hbout
    obtain ⟨tcs, htcs⟩ :=
      ih (fun e2 he2 => hprop e2 (List.mem_cons_of_mem _ he2))
    obtain ⟨tc, htc⟩ : ∃ tc, generate_test default_config e = some tc := by
      rw [generate_test, hinfx, houtfx]
      exact ⟨_, rfl⟩
    exact ⟨tc :: tcs, by rw [generate_tests, htc, htcs]⟩

theorem generate_tests_mem (cfg : Config) :
    ∀ (es : List LogEntry) (suite : List TestCase),
      generate_tests cfg es = some suite →
      ∀ tc ∈ suite, ∃ e ∈ es, generate_test cfg e = some tc := by
  intro es
  induction es with
  | nil =>
    intro suite hgen tc htc
    simp only [generate_tests, Option.some.injEq] at hgen
    subst hgen
    exact absurd htc (by simp)
  | cons e etl ih =>
    intro suite hgen tc htc
    rw [generate_tests] at hgen
    cases hg : generate_test cfg e with
    | none => simp [hg] at hgen
    | some tc1 =>
      cases hgtl : generate_tests cfg etl with
      | none => simp [hg, hgtl] at hgen
      | some tcs =>
        simp only [hg, hgtl, Option.some.injEq] at hgen
        subst hgen
        rcases List.mem_cons.mp htc with heq | hmem
        · exact ⟨e, List.mem_cons_self _ _, heq ▸ hg⟩
        · obtain ⟨e2, he2, hg2⟩ := ih tcs hgtl tc hmem
          exact ⟨e2, List.mem_cons_of_mem _ he2, hg2⟩

/-! ## The claims -/

/-- C1: For every module directory and driver script accepted by
`create_test_cases(module_dirpath, main_filepath)` — the default
configuration, so acceptance is the generator producing a suite — the
generated suite records the input/output values observed while running the
driver as regression baselines, so that immediately running the generated
suite against the unchanged module makes every generated test pass (and the
run exits with status 0). -/
theorem generated_suite_passes_default (env : AssertEnv) (m : ModuleDir)
    (driver : List Call) (suite : List TestCase)
    (hgen : generate_tests default_config (observe m driver) = some suite) :
    suite.all (run_test env default_config m) = true ∧
    create_test_cases env default_config m driver = some 0 := by
  have hpass := generate_tests_pass_default env m (observe m driver) suite
    (fun e he => observe_mem m driver e he) hgen
  refine ⟨hpass, ?_⟩
  rw [create_test_cases]
  simp only [hgen]
  simp [run_suite, hpass]

/-- Concrete instance of C1: the suite generated for `file1.add(2, 3)`
passes against the unchanged module and the run returns 0. -/
theorem generated_suite_passes_default_witness :
    List.all example_suite
      (run_test example_env default_config example_module) = true ∧
    create_test_cases example_env default_config example_module
      example_driver = some 0 :=
  generated_suite_passes_default example_env example_module example_driver
    example_suite rfl

/-- C2: `add_to_config(type_handling_str, assertion_mapping_str)` registers
the `new_type_handlers` dictionary and the `new_assertion_mapping`
dictionary defined by the two code strings in the module configuration, and
every `create_test_cases` run performed after that call uses them for the
corresponding types: the handler consulted for a value of a registered type
(`handler_for`, which `dump_value` and hence generation uses) is the
registered handler, and the assertion picked for a registered type key
(`assertion_for`, which `generate_test` uses) is the registered custom
assertion. -/
theorem add_to_config_registers_and_used (type_handling_str : TypeHandlingCode)
    (assertion_mapping_str : AssertionMappingCode) (cfg : Config)
    (key : String) (h : TypeHandler) (imp fn : String) (v : Value)
    (hth : lookup_key type_handling_str.new_type_handlers key = some h)
    (ham : lookup_key assertion_mapping_str.new_assertion_mapping key =
      some (imp, fn))
    (hv : get_dtype v = key) :
    lookup_key (add_to_config type_handling_str assertion_mapping_str
      cfg).type_handlers key = some h ∧
    lookup_key (add_to_config type_handling_str assertion_mapping_str
      cfg).assertion_mapping key = some (imp, fn) ∧
    handler_for (add_to_config type_handling_str assertion_mapping_str cfg) v =
      some h ∧
    assertion_for (add_to_config type_handling_str assertion_mapping_str cfg)
      key = AssertionSpec.custom imp fn := by
  have h1 : lookup_key (add_to_config type_handling_str assertion_mapping_str
      cfg).type_handlers key = some h :=
    lookup_key_append_left _ _ _ _ hth
  have h2 : lookup_key (add_to_config type_handling_str assertion_mapping_str
      cfg).assertion_mapping key = some (imp, fn) :=
    lookup_key_append_left _ _ _ _ ham
  refine ⟨h1, h2, ?_, ?_⟩
  · rw [handler_for, hv]
    exact h1
  · rw [assertion_for]
    simp only [h2]

/-- Concrete instance of C2: after the README's `add_to_config` call, the
`pymupdf.Document` handler and custom assertion are registered and are the
ones a later run consults for a `pymupdf.Document` value. -/
theorem add_to_config_registers_and_used_witness :
    lookup_key (add_to_config pdf_type_handling_code pdf_assertion_mapping_code
      default_config).type_handlers "pymupdf.Document" =
      some pdf_type_handler ∧
    lookup_key (add_to_config pdf_type_handling_code pdf_assertion_mapping_code
      default_config).assertion_mapping "pymupdf.Document" =
      some ("from logitest.config import assert_documents_equal",
            "assert_documents_equal") ∧
    handler_for (add_to_config pdf_type_handling_code pdf_assertion_mapping_code
      default_config) (Value.vcustom "pymupdf" "Document" "docbytes") =
      some pdf_type_handler ∧
    assertion_for (add_to_config pdf_type_handling_code
      pdf_assertion_mapping_code default_config) "pymupdf.Document" =
      AssertionSpec.custom "from logitest.config import assert_documents_equal"
        "assert_documents_equal" :=
  add_to_config_registers_and_used pdf_type_handling_code
    pdf_assertion_mapping_code default_config "pymupdf.Document"
    pdf_type_handler "from logitest.config import assert_documents_equal"
    "assert_documents_equal" (Value.vcustom "pymupdf" "Document" "docbytes")
    rfl rfl rfl

/-- C3: For every value whose type has an entry in the type handler table,
the fixture is written with the entry's `dump` function, read back with the
entry's `load` function, and stored in a file whose suffix is the entry's
extension string; the entry is looked up under the key `get_dtype value`
(that is the definition of `handler_for`), and `get_dtype` returns the
fully qualified `module.ClassName` string of the value's type. -/
theorem type_handler_dispatch_spec (cfg : Config) (v : Value)
    (h : TypeHandler) (stem : String) (fx : Fixture)
    (mod cls payload : String)
    (hl : handler_for cfg v = some h)
    (hfx : dump_value cfg stem v = some fx) :
    fx.filename = stem ++ h.extension ∧
    fx.dtype = get_dtype v ∧
    h.dump v = some fx.content ∧
    load_fixture cfg fx = h.load fx.content ∧
    get_dtype (Value.vcustom mod cls payload) = mod ++ "." ++ cls := by
  rw [dump_value] at hfx
  simp only [hl] at hfx
  cases hc : h.dump v with
  | none => simp [hc] at hfx
  | some c =>
    simp only [hc, Option.some.injEq] at hfx
    subst hfx
    have hl2 : lookup_key cfg.type_handlers (get_dtype v) = some h := hl
    refine ⟨rfl, rfl, rfl, ?_, rfl⟩
    simp only [load_fixture, hl2]

/-- Concrete instance of C3: the baseline fixture of an observed `int`
value under the default configuration is a `.json` file written and read
by the JSON handler, and the `pymupdf.Document` key has the qualified
form. -/
theorem type_handler_dispatch_spec_witness :
    example_int_fixture.filename =
      "tests/file1/calc_output" ++ json_type_handler.extension ∧
    example_int_fixture.dtype = get_dtype (Value.vint 7) ∧
    json_type_handler.dump (Value.vint 7) = some example_int_fixture.content ∧
    load_fixture default_config example_int_fixture =
      json_type_handler.load example_int_fixture.content ∧
    get_dtype (Value.vcustom "pymupdf" "Document" "docbytes") =
      "pymupdf" ++ "." ++ "Document" :=
  type_handler_dispatch_spec default_config (Value.vint 7) json_type_handler
    "tests/file1/calc_output" example_int_fixture
    "pymupdf" "Document" "docbytes" rfl rfl

/-- C4: For every output value whose `get_dtype` key has an entry in the
assertion mapping, the generated test body compares the actual result
against the baseline by calling the mapped custom assert function (carried
with its stored import statement) instead of the default equality
assertion. -/
theorem custom_assertion_used (cfg : Config) (e : LogEntry) (tc : TestCase)
    (imp fn : String) (env : AssertEnv) (actual : Value)
    (hmap : lookup_key cfg.assertion_mapping (get_dtype e.output) =
      some (imp, fn))
    (hgen : generate_test cfg e = some tc) :
    tc.assertion = AssertionSpec.custom imp fn ∧
    tc.assertion ≠ AssertionSpec.defaultEq ∧
    apply_assertion env cfg tc.assertion tc.outputFixture actual =
      (match dump_content cfg actual with
       | some c => env fn c tc.outputFixture.content
       | Option.none => false) := by
  obtain ⟨_, _, _, hassert, _, _⟩ := generate_test_fields cfg e tc hgen
  have hca : tc.assertion = AssertionSpec.custom imp fn := by
    rw [hassert, assertion_for]
    simp only [hmap]
  refine ⟨hca, ?_, ?_⟩
  · rw [hca]
    intro hcon
    exact AssertionSpec.noConfusion hcon
  · rw [hca]
    rfl

/-- Concrete instance of C4: the test generated for a `pymupdf.Document`
output under `pdf_config` carries the registered custom assertion and its
body applies it to the dumped files. -/
theorem custom_assertion_used_witness :
    pdf_test_case.assertion = AssertionSpec.custom
      "from logitest.config import assert_documents_equal"
      "assert_documents_equal" ∧
    pdf_test_case.assertion ≠ AssertionSpec.defaultEq ∧
    apply_assertion example_env pdf_config pdf_test_case.assertion
      pdf_test_case.outputFixture (Value.vcustom "pymupdf" "Document" "docbytes") =
      (match dump_content pdf_config
          (Value.vcustom "pymupdf" "Document" "docbytes") with
       | some c => example_env "assert_documents_equal" c
           pdf_test_case.outputFixture.content
       | Option.none => false) :=
  custom_assertion_used pdf_config pdf_entry pdf_test_case
    "from logitest.config import assert_documents_equal"
    "assert_documents_equal" example_env
    (Value.vcustom "pymupdf" "Document" "docbytes") rfl rfl

/-- C5: `create_test_cases`, after generating the test suite, runs the
suite with coverage measurement enabled (its return value is the run's
exit status) and reports per-file coverage covering the target module's
source files and the generated test files. -/
theorem create_test_cases_coverage_report (env : AssertEnv) (cfg : Config)
    (m : ModuleDir) (driver : List Call) (suite : List TestCase)
    (hgen : generate_tests cfg (observe m driver) = some suite) :
    create_test_cases env cfg m driver =
      some (run_suite env cfg m suite).exitCode ∧
    (∀ sf ∈ m, sf.name ∈ (run_suite env cfg m suite).coverage) ∧
    (∀ tc ∈ suite, tc.path ∈ (run_suite env cfg m suite).coverage) := by
  refine ⟨?_, ?_, ?_⟩
  · rw [create_test_cases]
    simp only [hgen]
  · intro sf hsf
    simp only [run_suite]
    exact List.mem_cons_of_mem _ (List.mem_append_left _
      (List.mem_map_of_mem SourceFile.name hsf))
  · intro tc htc
    simp only [run_suite]
    exact List.mem_cons_of_mem _ (List.mem_append_right _
      (List.mem_map_of_mem TestCase.path htc))

/-- Concrete instance of C5: the `file1.add` run returns the report's exit
status, and the coverage report lists both `file1` and the generated test
file. -/
theorem create_test_cases_coverage_report_witness :
    create_test_cases example_env default_config example_module
      example_driver =
      some (run_suite example_env default_config example_module
        example_suite).exitCode ∧
    (∀ sf ∈ example_module, sf.name ∈ (run_suite example_env default_config
      example_module example_suite).coverage) ∧
    (∀ tc ∈ example_suite, tc.path ∈ (run_suite example_env default_config
      example_module example_suite).coverage) :=
  create_test_cases_coverage_report example_env default_config example_module
    example_driver example_suite rfl

/-- C7: Only non-built-in input/output types require registered custom
handlers: when every observed input and output value is built-in, the
default configuration (no prior `add_to_config` call) serializes all of
them into fixtures, and the generated equality assertions all pass. -/
theorem builtin_values_need_no_config (env : AssertEnv) (m : ModuleDir)
    (driver : List Call)
    (hb : ∀ e ∈ observe m driver,
      is_builtin_list e.inputs = true ∧ is_builtin e.output = true) :
    ∃ suite, generate_tests default_config (observe m driver) = some suite ∧
      suite.all (run_test env default_config m) = true ∧
      create_test_cases env default_config m driver = some 0 := by
  obtain ⟨suite, hsuite⟩ := generate_tests_total_default (observe m driver) hb
  have hpass := generate_tests_pass_default env m (observe m driver) suite
    (fun e he => observe_mem m driver e he) hsuite
  refine ⟨suite, hsuite, hpass, ?_⟩
  rw [create_test_cases]
  simp only [hsuite]
  simp [run_suite, hpass]

/-- Concrete instance of C7: the `file1.add(2, 3)` run has only built-in
values, so the default configuration generates and passes the suite. -/
theorem builtin_values_need_no_config_witness :
    ∃ suite, generate_tests default_config
        (observe example_module example_driver) = some suite ∧
      suite.all (run_test example_env default_config example_module) = true ∧
      create_test_cases example_env default_config example_module
        example_driver = some 0 :=
  builtin_values_need_no_config example_env example_module example_driver
    (by
      intro e he
      have hobs : observe example_module example_driver = [example_entry] := rfl
      rw [hobs, List.mem_singleton] at he
      subst he
      exact ⟨rfl, rfl⟩)

/-- C8: For every module directory path and main file path, the command
line `logitest <module_dirpath> <main_filepath>` performs the same
operation as calling `create_test_cases(module_dirpath=…, main_filepath=…)`
from Python: the same generated suite and the same test run, hence the
same result. -/
theorem cli_matches_python_api (env : AssertEnv) (disk : Disk)
    (module_dirpath main_filepath : String) :
    cli_main env disk [module_dirpath, main_filepath] =
      create_test_cases_paths env disk default_config module_dirpath
        main_filepath := by
  rw [cli_main, create_test_cases_paths]
  cases hm : disk.load_module module_dirpath with
  | none => rfl
  | some m =>
    cases hd : disk.load_driver main_filepath with
    | none => rfl
    | some driver => rfl

/-- C9: `create_test_cases` returns the exit status of the test run it
performs, and that status is 0 exactly when the generated suite runs with
every generated test passing. -/
theorem create_test_cases_exit_status (env : AssertEnv) (cfg : Config)
    (m : ModuleDir) (driver : List Call) (suite : List TestCase)
    (hgen : generate_tests cfg (observe m driver) = some suite) :
    create_test_cases env cfg m driver =
      some (run_suite env cfg m suite).exitCode ∧
    ((run_suite env cfg m suite).exitCode = 0 ↔
      suite.all (run_test env cfg m) = true) := by
  refine ⟨?_, ?_⟩
  · rw [create_test_cases]
    simp only [hgen]
  · simp only [run_suite]
    by_cases hall : suite.all (run_test env cfg m) = true
    · simp [hall]
    · simp [hall]

/-- Concrete instance of C9: the `file1.add` run returns the run report's
exit status, 0 exactly when the suite passes. -/
theorem create_test_cases_exit_status_witness :
    create_test_cases example_env default_config example_module
      example_driver =
      some (run_suite example_env default_config example_module
        example_suite).exitCode ∧
    ((run_suite example_env default_config example_module
        example_suite).exitCode = 0 ↔
      example_suite.all (run_test example_env default_config example_module) =
        true) :=
  create_test_cases_exit_status example_env default_config example_module
    example_driver example_suite rfl

/-- C10: `create_test_cases` writes a `conftest.py` into the parent
directory of the given module directory, and lays the generated suite out
as one test file per discovered function, grouped by source file:
`tests/<source-file-name>/test_<function-name>.py`. -/
theorem suite_layout_and_conftest (cfg : Config) (module_dirpath : String)
    (m : ModuleDir) (driver : List Call) (suite : List TestCase)
    (files : List String)
    (hgen : generate_tests cfg (observe m driver) = some suite)
    (hw : written_files cfg module_dirpath m driver = some files) :
    files = conftest_path module_dirpath :: test_file_names suite ∧
    conftest_path module_dirpath =
      parent_dir module_dirpath ++ "/conftest.py" ∧
    (∀ tc ∈ suite,
      tc.path = "tests/" ++ tc.sourceFile ++ "/test_" ++ tc.funcName ++ ".py" ∧
      ∃ e ∈ observe m driver, tc.sourceFile = e.file ∧ tc.funcName = e.func) := by
  refine ⟨?_, rfl, ?_⟩
  · rw [written_files] at hw
    simp only [hgen, Option.some.injEq] at hw
    exact hw.symm
  · intro tc htc
    obtain ⟨e, he, hg⟩ :=
      generate_tests_mem cfg (observe m driver) suite hgen tc htc
    obtain ⟨hsf, hfn, hpath, _, _, _⟩ := generate_test_fields cfg e tc hg
    refine ⟨?_, e, he, hsf, hfn⟩
    rw [hpath, hsf, hfn]
    rfl

/-- Concrete instance of C10: for module directory
`examples/example_module` the conftest goes to `examples/conftest.py`, and
the one generated test sits at `tests/file1/test_add.py`. -/
theorem suite_layout_and_conftest_witness :
    ["examples/conftest.py", "tests/file1/test_add.py"] =
      conftest_path "examples/example_module" ::
        test_file_names example_suite ∧
    conftest_path "examples/example_module" =
      parent_dir "examples/example_module" ++ "/conftest.py" ∧
    (∀ tc ∈ example_suite,
      tc.path = "tests/" ++ tc.sourceFile ++ "/test_" ++ tc.funcName ++ ".py" ∧
      ∃ e ∈ observe example_module example_driver,
        tc.sourceFile = e.file ∧ tc.funcName = e.func) :=
  suite_layout_and_conftest default_config "examples/example_module"
    example_module example_driver example_suite
    ["examples/conftest.py", "tests/file1/test_add.py"] rfl rfl

end Logitest
